import Mathlib

/-!
Shallow embedding of `scripts/rag_sync_to_vector_store.py`.

The script is a linear batch pipeline: paginated HTTP fetch of page records
(`iter_pages`, each GET wrapped in a tenacity retry with 5 attempts),
flattening of each record to a text document (`page_to_text`), upsert-by-name
resolution of a remote vector store, and one upload+attach per prepared file
(`main`), with a top-level handler turning any exception into an `ERROR:` line
and exit status 1.

Conventions of the embedding:
* JSON dictionary fields accessed with `.get(k)` are `Option` fields; Python
  truthiness of a string is `≠ ""`, of a list is `≠ []`, of `Option` is
  `isSome` with a falsy payload also counting as false where the source uses
  `or` / `if`.
* The unbounded `while True` pagination loop takes explicit fuel; fuel 0
  returns the empty result, and every claim about the loop supplies enough
  fuel for the continuation flag to be reached.
* The HTTP server is a function from a request and a 1-based attempt number to
  `Except String Response`; `get_json`'s retry decorator is `retryAux`.
* The run is pure: `runMain` returns the printed lines and the counts of
  list/create/upload/attach calls, plus `Option String` for a raised error;
  `runTop` is the `__main__` try/except wrapper producing the exit code.
-/

/-- Python `str.strip` whitespace set (ASCII part). -/
def isPySpace (c : Char) : Bool :=
  c == ' ' || c == '\t' || c == '\n' || c == '\r' || c == '\x0B' || c == '\x0C'

/-- Python `s.strip()`. -/
def pyStrip (s : String) : String :=
  String.mk (((s.data.dropWhile isPySpace).reverse.dropWhile isPySpace).reverse)

/-- Python `a or b` on strings: `a` when truthy (non-empty), else `b`. -/
def pyOr (a b : String) : String :=
  if a ≠ "" then a else b

/-- Python `f"{x}"` on an optional string (`None` renders as `"None"`). -/
def pyStr (x : Option String) : String :=
  match x with
  | some s => s
  | none => "None"

/-- Python `f"{x}"` on an optional integer (`None` renders as `"None"`). -/
def pyShowNat (x : Option Nat) : String :=
  match x with
  | some n => toString n
  | none => "None"

/-- One element of a page record's `headings` list. -/
structure Heading where
  level : Option Nat
  text : String
  id : Option String
deriving Repr, DecidableEq

/-- A page record as returned by `/rag/v1/pages` (fields read via `.get`). -/
structure Page where
  id : Option String := none
  title : Option String := none
  permalink : Option String := none
  modified_date_gmt : Option String := none
  headings : Option (List Heading) := none
  content_text : Option String := none
  brand : Option String := none
  pillar : Option String := none
  sectionTax : Option String := none
deriving Repr, DecidableEq

/-- The `metadata` object of a paginated response. -/
structure Meta where
  hasMore : Option Bool := none
deriving Repr, DecidableEq

/-- A JSON response of `/rag/v1/pages`. -/
structure Response where
  pages : Option (List Page) := none
  metadata : Option Meta := none
deriving Repr, DecidableEq

/-- One HTTP GET issued by `iter_pages`: either the explicit-ids request or a
numbered page of the paginated sweep (with the optional `modified_after`
query parameter). -/
inductive Request where
  | byIds (ids : String)
  | byPage (perPage : Nat) (page : Nat) (modifiedAfter : Option String)
deriving Repr, DecidableEq

/-- Python `"\n".join`. -/
def joinNL : List String → String
  | [] => ""
  | [l] => l
  | l :: l' :: ls => l ++ "\n" ++ joinNL (l' :: ls)

/-- The line `page_to_text` appends for one heading:
`f"  - H{lvl} {txt}" + (f"  (#{hid})" if hid else "")`. -/
def headingLine (h : Heading) : String :=
  "  - H" ++ pyShowNat h.level ++ " " ++ h.text ++
    (match h.id with
     | some hid => if hid ≠ "" then "  (#" ++ hid ++ ")" else ""
     | none => "")

/-- The `lines` list built by `page_to_text` before joining. -/
def pageLines (p : Page) : List String :=
  let title := p.title.getD ""
  let permalink := p.permalink.getD ""
  let modified := p.modified_date_gmt.getD ""
  let headings := p.headings.getD []
  let content_text := p.content_text.getD ""
  ["TITLE: " ++ title, "URL: " ++ permalink, "LAST_MODIFIED: " ++ modified, ""]
    ++ (if headings ≠ [] then "HEADINGS:" :: headings.map headingLine ++ [""] else [])
    ++ ["CONTENT:", pyStrip content_text]

/-- `page_to_text`: flatten a page record to the uploaded text body. -/
def pageToText (p : Page) : String :=
  joinNL (pageLines p) ++ "\n"

/-- Split a character list on newlines (Python `s.split("\n")` semantics). -/
def splitLinesAux : List Char → List Char → List String
  | [], acc => [String.mk acc.reverse]
  | c :: cs, acc =>
    if c = '\n' then String.mk acc.reverse :: splitLinesAux cs []
    else splitLinesAux cs (c :: acc)

/-- The list of lines of a string. -/
def linesOf (s : String) : List String :=
  splitLinesAux s.data []

/-- Whether a string contains the given exact line (split on newlines). -/
def hasLine (s line : String) : Bool :=
  (linesOf s).contains line

/-- The `for p in data.get("pages", [])` source list of a response. -/
def pagesOf (d : Response) : List Page :=
  d.pages.getD []

/-- The loop-continuation test of `iter_pages`: `meta.get("has_more")` is
truthy, where `meta = data.get("metadata", {})`. -/
def hasMoreOf (d : Response) : Bool :=
  match d.metadata with
  | some m => m.hasMore.getD false
  | none => false

/-- The tenacity retry loop of `get_json`: run attempt `attempt` of `f`;
on failure, retry while fewer than `remaining` attempts are left. -/
def retryAux (f : Nat → Except String α) (attempt : Nat) : Nat → Except String α
  | 0 => Except.error "retry exhausted"
  | n + 1 =>
    match f attempt with
    | Except.ok a => Except.ok a
    | Except.error e => if n = 0 then Except.error e else retryAux f (attempt + 1) n

/-- `get_json` for one request: `@retry(..., stop=stop_after_attempt(5))`,
attempts numbered from 1. `server req k` is what the GET returns on its
`k`-th attempt. -/
def getJson (server : Request → Nat → Except String Response) (req : Request) :
    Except String Response :=
  retryAux (server req) 1 5

/-- The request the paginated branch of `iter_pages` sends for page number
`pg` (`per_page=50`, `modified_after` only when the filter is non-empty). -/
def pageReq (pg : Nat) (modifiedAfter : String) : Request :=
  Request.byPage 50 pg (if modifiedAfter ≠ "" then some modifiedAfter else none)

/-- The `while True` pagination loop of `iter_pages`, with explicit fuel and a
log of the requests issued; returns the yielded page records. -/
def iterLoop (fetch : Request → Except String Response) (modifiedAfter : String) :
    Nat → Nat → Except String (List Page × List Request)
  | 0, _ => Except.ok ([], [])
  | fuel + 1, pg =>
    let req := pageReq pg modifiedAfter
    match fetch req with
    | Except.error e => Except.error e
    | Except.ok d =>
      if hasMoreOf d then
        match iterLoop fetch modifiedAfter fuel (pg + 1) with
        | Except.error e => Except.error e
        | Except.ok (rest, reqs) => Except.ok (pagesOf d ++ rest, req :: reqs)
      else Except.ok (pagesOf d, [req])

/-- `iter_pages(modified_after, ids)`: the explicit-ids branch does one GET
and yields `data.get("pages", [])`; otherwise the paginated sweep runs from
page 1. -/
def iterPages (fetch : Request → Except String Response)
    (modifiedAfter ids : String) (fuel : Nat) :
    Except String (List Page × List Request) :=
  if ids ≠ "" then
    Except.map (fun d => (pagesOf d, [Request.byIds ids])) (fetch (Request.byIds ids))
  else
    iterLoop fetch modifiedAfter fuel 1

/-- Truthiness of `page.get("id")` in `main`'s fetch loop. -/
def truthyId (p : Page) : Bool :=
  match p.id with
  | some s => s ≠ ""
  | none => false

/-- `main`'s fetch loop body: skip records with a falsy id, otherwise write
`{pid}.txt` with the flattened text and remember the `(path, page)` pair. -/
def processPages : List Page → List (String × String × Page)
  | [] => []
  | p :: rest =>
    match p.id with
    | none => processPages rest
    | some pid =>
      if pid = "" then processPages rest
      else (pid ++ ".txt", pageToText p, p) :: processPages rest

/-- The attribute mapping built in `main` for one uploaded page, as the
ordered key/value list passed to the attach call. -/
def mkAttrs (p : Page) : List (String × Option String) :=
  [("source", p.permalink),
   ("page_id", some (pyStr p.id)),
   ("modified", p.modified_date_gmt),
   ("title", p.title),
   ("brand", p.brand),
   ("pillar", p.pillar),
   ("section", p.sectionTax)]

/-- A vector store object as seen through the SDK (`getattr(s, "name", None)`). -/
structure Store where
  id : String
  name : Option String := none
deriving Repr, DecidableEq

/-- Store resolution in `main`: first listed store with the exact target name
wins; otherwise one create call (returning a fresh store with that name).
The second component counts create calls (0 or 1). -/
def resolveStore (stores : List Store) (target : String) (freshId : String) :
    Store × Nat :=
  match stores.find? (fun s => s.name = some target) with
  | some s => (s, 0)
  | none => ({ id := freshId, name := some target }, 1)

/-- Observable state of one run: printed lines and call counts. -/
structure RunState where
  output : List String := []
  preparedCount : Nat := 0
  listCalls : Nat := 0
  createCalls : Nat := 0
  uploadCalls : Nat := 0
  attachCalls : Nat := 0
  attachLog : List (String × List (String × Option String)) := []
deriving Repr, DecidableEq

/-- The effective `since` value: `INPUT_SINCE or STORED_CURSOR or ""`. -/
def effectiveSince (inputSince storedCursor : String) : String :=
  pyOr inputSince (pyOr storedCursor "")

/-- `main()`: fetch and flatten pages, early-return on zero prepared files,
otherwise resolve the store once and upload+attach each file in order.
Returns the run state and `some e` when an exception `e` escapes. -/
def runMain (server : Request → Nat → Except String Response) (fuel : Nat)
    (inputSince storedCursor updateIds storeName : String)
    (stores : List Store) (freshId sdkVersion : String) :
    RunState × Option String :=
  let sdkLine := "OpenAI SDK version: " ++ sdkVersion
  let since := effectiveSince inputSince storedCursor
  let ids := pyOr (pyStrip updateIds) ""
  match iterPages (getJson server) since ids fuel with
  | Except.error e => ({ output := [sdkLine] }, some e)
  | Except.ok (pages, _) =>
    let files := processPages pages
    let count := files.length
    let preparedLine :=
      "Prepared " ++ toString count ++ " page files in /tmp/rag_pages"
    if count = 0 then
      ({ output := [sdkLine, preparedLine], preparedCount := count }, none)
    else
      let (store, created) := resolveStore stores storeName freshId
      let usingLine :=
        "Using Vector Store: " ++ store.id ++ " (" ++ pyStr store.name ++ ")"
      let attaches := files.map (fun f => (f.1, mkAttrs f.2.2))
      let uploadedLine :=
        "Uploaded " ++ toString files.length ++ " files to vector store."
      ({ output := [sdkLine, preparedLine, usingLine, uploadedLine],
         preparedCount := count,
         listCalls := 1,
         createCalls := created,
         uploadCalls := files.length,
         attachCalls := files.length,
         attachLog := attaches }, none)

/-- The `__main__` wrapper: print `ERROR: <e>` and exit 1 on an exception,
exit 0 otherwise. -/
def runTop (server : Request → Nat → Except String Response) (fuel : Nat)
    (inputSince storedCursor updateIds storeName : String)
    (stores : List Store) (freshId sdkVersion : String) :
    RunState × Nat :=
  match runMain server fuel inputSince storedCursor updateIds storeName
      stores freshId sdkVersion with
  | (st, none) => (st, 0)
  | (st, some e) => ({ st with output := st.output ++ ["ERROR: " ++ e] }, 1)

/-! ## Structure of the flattened document -/

theorem joinNL_cons (x : String) (xs : List String) (h : xs ≠ []) :
    joinNL (x :: xs) = x ++ "\n" ++ joinNL xs := by
  cases xs with
  | nil => exact absurd rfl h
  | cons y ys => rfl

theorem joinNL_append (xs ys : List String) (hx : xs ≠ []) (hy : ys ≠ []) :
    joinNL (xs ++ ys) = joinNL xs ++ "\n" ++ joinNL ys := by
  induction xs with
  | nil => exact absurd rfl hx
  | cons x xs ih =>
    cases xs with
    | nil =>
      cases ys with
      | nil => exact absurd rfl hy
      | cons y ys => rfl
    | cons x' xs' =>
      rw [List.cons_append,
        joinNL_cons x ((x' :: xs') ++ ys) (by simp),
        ih (by simp),
        joinNL_cons x (x' :: xs') (by simp)]
      simp [String.append_assoc]

theorem joinNL_headAppend (x : String) (xs ys : List String) (hy : ys ≠ []) :
    joinNL (x :: (xs ++ ys)) = joinNL (x :: xs) ++ "\n" ++ joinNL ys := by
  rw [← List.cons_append]
  exact joinNL_append (x :: xs) ys (by simp) hy

/-- The heading block `page_to_text` inserts between the header lines and
`CONTENT:` (empty when the record has no headings). -/
def headingBlock (hs : List Heading) : String :=
  if hs = [] then ""
  else "HEADINGS:" ++ "\n" ++ joinNL (hs.map headingLine) ++ "\n" ++ "\n"

theorem pageToText_shape (p : Page) :
    pageToText p =
      "TITLE: " ++ p.title.getD "" ++ "\n" ++
      "URL: " ++ p.permalink.getD "" ++ "\n" ++
      "LAST_MODIFIED: " ++ p.modified_date_gmt.getD "" ++ "\n" ++ "\n" ++
      headingBlock (p.headings.getD []) ++
      "CONTENT:" ++ "\n" ++ pyStrip (p.content_text.getD "") ++ "\n" := by
  apply String.ext
  cases hhs : p.headings.getD [] with
  | nil =>
    simp [pageToText, pageLines, headingBlock, hhs, joinNL,
      String.data_append, List.append_assoc]
  | cons h hs' =>
    simp [pageToText, pageLines, headingBlock, hhs, joinNL, joinNL_headAppend,
      String.data_append, List.append_assoc]

/-! ## C6: formatter layout -/

/-- `s` contains the four given substrings in this order. -/
def containsInOrder4 (s k1 k2 k3 k4 : String) : Prop :=
  ∃ a b c d e, s = a ++ k1 ++ b ++ k2 ++ c ++ k3 ++ d ++ k4 ++ e

/-- A page whose only heading is `{level: 2, text: "Intro", id: "intro"}`. -/
def introPage : Page :=
  { id := some "7", title := some "T",
    headings := some [{ level := some 2, text := "Intro", id := some "intro" }],
    content_text := some "Body" }

/-- A page with an empty headings list whose body text itself contains a
`HEADINGS:` line. -/
def headingsInjectionPage : Page :=
  { id := some "1", headings := some [], content_text := some "HEADINGS:" }

/-- C6 counterexample: the record has an empty headings list, yet the
formatted output does contain a `HEADINGS:` line (coming verbatim from the
unsanitized body text). -/
theorem c6_counterexample :
    headingsInjectionPage.headings.getD [] = []
    ∧ hasLine (pageToText headingsInjectionPage) "HEADINGS:" = true := by
  constructor
  · rfl
  · decide

/-- C6 (amended): for every page record the formatted text contains
`TITLE:`, `URL:`, `LAST_MODIFIED:`, `CONTENT:` in that order; when the
headings list is empty the formatter emits no heading block of its own (the
output is exactly the three header lines, a blank line, `CONTENT:` and the
trimmed body, so a `HEADINGS:` line can only come from the record's own field
values); and a heading `{level: 2, text: "Intro", id: "intro"}` renders as the
exact line `  - H2 Intro  (#intro)`, the anchor suffix appearing only when an
id is present. -/
theorem c6_formatter_layout (p : Page) :
    containsInOrder4 (pageToText p) "TITLE:" "URL:" "LAST_MODIFIED:" "CONTENT:"
    ∧ (p.headings.getD [] = [] →
        pageToText p =
          "TITLE: " ++ p.title.getD "" ++ "\n" ++
          "URL: " ++ p.permalink.getD "" ++ "\n" ++
          "LAST_MODIFIED: " ++ p.modified_date_gmt.getD "" ++ "\n" ++ "\n" ++
          "CONTENT:" ++ "\n" ++ pyStrip (p.content_text.getD "") ++ "\n")
    ∧ headingLine { level := some 2, text := "Intro", id := some "intro" }
        = "  - H2 Intro  (#intro)"
    ∧ headingLine { level := some 2, text := "Intro", id := none } = "  - H2 Intro"
    ∧ hasLine (pageToText introPage) "  - H2 Intro  (#intro)" = true := by
  refine ⟨?_, ?_, by decide, by decide, by decide⟩
  · refine ⟨"", " " ++ p.title.getD "" ++ "\n",
      " " ++ p.permalink.getD "" ++ "\n",
      " " ++ p.modified_date_gmt.getD "" ++ "\n" ++ "\n"
        ++ headingBlock (p.headings.getD []),
      "\n" ++ pyStrip (p.content_text.getD "") ++ "\n", ?_⟩
    rw [pageToText_shape]
    apply String.ext
    simp [String.data_append, List.append_assoc]
  · intro hhs
    rw [pageToText_shape, hhs]
    apply String.ext
    simp [headingBlock, String.data_append, List.append_assoc]

/-- C6 witness: the amended layout theorem evaluated on a concrete page with
a title and no headings. -/
theorem c6_formatter_layout_witness :
    pageToText { id := some "9", title := some "T" } =
      "TITLE: " ++ "T" ++ "\n" ++ "URL: " ++ "" ++ "\n" ++
      "LAST_MODIFIED: " ++ "" ++ "\n" ++ "\n" ++
      "CONTENT:" ++ "\n" ++ "" ++ "\n" :=
  (c6_formatter_layout { id := some "9", title := some "T" }).2.1 rfl

/-! ## C1: one document and one upload+attach per page with a truthy id -/

theorem processPages_eq (pages : List Page) :
    processPages pages
      = (pages.filter (fun p => truthyId p)).map
          (fun p => (p.id.getD "" ++ ".txt", pageToText p, p)) := by
  induction pages with
  | nil => rfl
  | cons p rest ih =>
    cases hid : p.id with
    | none => simp [processPages, truthyId, hid, ih]
    | some s =>
      by_cases hs : s = "" <;>
        simp [processPages, truthyId, hid, hs, ih]

/-- A server always answering one page record with id `"5"` and no
continuation flag. -/
def okServer : Request → Nat → Except String Response :=
  fun _ _ => Except.ok { pages := some [{ id := some "5" }], metadata := none }

/-- C1: every fetched page record with a truthy (non-empty) identifier yields
exactly one flattened text document (`processPages` is exactly filter-by-id
then map-to-document, so the prepared count equals the number of such
records); a record with an empty or missing identifier is silently skipped
and the count is not incremented; and in every successful run the number of
upload calls and of attach calls both equal the prepared-page count. -/
theorem c1_unique_document_and_upload :
    (∀ pages : List Page,
      processPages pages
        = (pages.filter (fun p => truthyId p)).map
            (fun p => (p.id.getD "" ++ ".txt", pageToText p, p))
      ∧ (processPages pages).length = (pages.filter (fun p => truthyId p)).length)
    ∧ (∀ (p : Page) (pages : List Page), truthyId p = false →
        processPages (p :: pages) = processPages pages)
    ∧ (∀ server fuel a b c name stores fid v st,
        runMain server fuel a b c name stores fid v = (st, none) →
        st.uploadCalls = st.preparedCount ∧ st.attachCalls = st.preparedCount
          ∧ st.attachLog.length = st.preparedCount) := by
  refine ⟨fun pages => ⟨processPages_eq pages, by rw [processPages_eq]; simp⟩,
    ?_, ?_⟩
  · intro p pages h
    cases hid : p.id with
    | none => simp [processPages, hid]
    | some s =>
      rw [truthyId, hid] at h
      simp only [ne_eq, decide_not] at h
      have hs : s = "" := by
        by_contra hne
        simp [hne] at h
      simp [processPages, hid, hs]
  · intro server fuel a b c name stores fid v st h
    unfold runMain at h
    dsimp only at h
    cases hres : iterPages (getJson server) (effectiveSince a b)
        (pyOr (pyStrip c) "") fuel with
    | error e =>
      rw [hres] at h
      simp only [Prod.mk.injEq] at h
      exact absurd h.2 (by simp)
    | ok pr =>
      obtain ⟨pages, reqs⟩ := pr
      rw [hres] at h
      by_cases hc : (processPages pages).length = 0
      · simp only [hc, eq_self_iff_true, if_true, Prod.mk.injEq, and_true] at h
        subst h
        simp [hc]
      · rcases hrs : resolveStore stores name fid with ⟨store, created⟩
        rw [hrs] at h
        simp only [if_neg hc, Prod.mk.injEq, and_true] at h
        subst h
        simp

/-- C1 witness: the skip clause on a concrete empty-id page and the
upload-per-prepared-page count on a concrete successful run. -/
theorem c1_unique_document_and_upload_witness :
    truthyId ({ id := some "" } : Page) = false
    ∧ processPages [({ id := some "" } : Page)] = processPages ([] : List Page)
    ∧ (runMain okServer 1 "" "" "" "vbl-rag-test" [] "vs_new" "1.0").1.uploadCalls
        = (runMain okServer 1 "" "" "" "vbl-rag-test" [] "vs_new" "1.0").1.preparedCount := by
  refine ⟨by decide, c1_unique_document_and_upload.2.1 _ [] (by decide), ?_⟩
  exact (c1_unique_document_and_upload.2.2 okServer 1 "" "" "" "vbl-rag-test"
    [] "vs_new" "1.0"
    (runMain okServer 1 "" "" "" "vbl-rag-test" [] "vs_new" "1.0").1 (by decide)).1

/-! ## C2: pagination terminates exactly on the continuation flag -/

/-- A minimal page record used to populate synthetic server pages. -/
def pageA : Page :=
  { id := some "a" }

/-- A server serving 3 pages of sizes 50, 50, 7 with continuation flags
true, true, false. -/
def resp107 (pg : Nat) : Response :=
  if pg = 1 then
    { pages := some (List.replicate 50 pageA), metadata := some { hasMore := some true } }
  else if pg = 2 then
    { pages := some (List.replicate 50 pageA), metadata := some { hasMore := some true } }
  else if pg = 3 then
    { pages := some (List.replicate 7 pageA), metadata := some { hasMore := some false } }
  else
    { pages := some [], metadata := some { hasMore := some true } }

/-- The fetch function of the 3-page scenario (it never fails). -/
def fetch107 : Request → Except String Response
  | Request.byPage _ pg _ => Except.ok (resp107 pg)
  | Request.byIds _ => Except.ok {}

/-- C2: the paginated sweep stops exactly when the response's continuation
flag is falsy — a false flag ends the loop after that page regardless of how
many records it carried, a true flag makes the loop fetch the next page —
and on the concrete 3-page server with sizes 50/50/7 and flags
true/true/false it yields 107 records with exactly the 3 page requests. -/
theorem c2_pagination_stops_on_flag :
    (∀ (fetch : Request → Except String Response) (m : String) (fuel pg : Nat)
        (d : Response),
      fetch (pageReq pg m) = Except.ok d → hasMoreOf d = false →
      iterLoop fetch m (fuel + 1) pg = Except.ok (pagesOf d, [pageReq pg m]))
    ∧ (∀ (fetch : Request → Except String Response) (m : String) (fuel pg : Nat)
        (d : Response),
      fetch (pageReq pg m) = Except.ok d → hasMoreOf d = true →
      iterLoop fetch m (fuel + 1) pg
        = Except.map (fun r => (pagesOf d ++ r.1, pageReq pg m :: r.2))
            (iterLoop fetch m fuel (pg + 1)))
    ∧ Except.map (fun r => (r.1.length, r.2)) (iterPages fetch107 "" "" 10)
        = Except.ok (107, [pageReq 1 "", pageReq 2 "", pageReq 3 ""]) := by
  refine ⟨?_, ?_, rfl⟩
  · intro fetch m fuel pg d hf hm
    simp [iterLoop, hf, hm]
  · intro fetch m fuel pg d hf hm
    cases hrec : iterLoop fetch m fuel (pg + 1) with
    | error e => simp [iterLoop, hf, hm, hrec, Except.map]
    | ok r => simp [iterLoop, hf, hm, hrec, Except.map]

/-- C2 witness: the stop clause applied to page 3 of the concrete server,
whose continuation flag is false. -/
theorem c2_pagination_stops_on_flag_witness :
    fetch107 (pageReq 3 "") = Except.ok (resp107 3)
    ∧ hasMoreOf (resp107 3) = false
    ∧ iterLoop fetch107 "" (5 + 1) 3 = Except.ok (pagesOf (resp107 3), [pageReq 3 ""]) :=
  ⟨rfl, by decide,
    c2_pagination_stops_on_flag.1 fetch107 "" 5 3 (resp107 3) rfl (by decide)⟩

/-! ## C3: explicit ID list means exactly one fetch, no pagination -/

/-- C3: when a non-empty ID list is supplied, `iter_pages` issues exactly one
request, for exactly that ID set; the result is whatever the server reports
for it, and neither the `since` filter nor the pagination fuel plays any
role. -/
theorem c3_explicit_ids_single_fetch :
    ∀ (fetch : Request → Except String Response) (m m' ids : String)
      (fuel fuel' : Nat), ids ≠ "" →
      iterPages fetch m ids fuel
          = Except.map (fun d => (pagesOf d, [Request.byIds ids]))
              (fetch (Request.byIds ids))
      ∧ iterPages fetch m ids fuel = iterPages fetch m' ids fuel'
      ∧ ∀ d, fetch (Request.byIds ids) = Except.ok d →
          iterPages fetch m ids fuel = Except.ok (pagesOf d, [Request.byIds ids]) := by
  intro fetch m m' ids fuel fuel' h
  refine ⟨by simp [iterPages, h], by simp [iterPages, h], ?_⟩
  intro d hd
  simp [iterPages, h, hd, Except.map]

/-- C3 witness: with the ID list `"5,9"`, the result is independent of the
`since` value and of the pagination fuel. -/
theorem c3_explicit_ids_single_fetch_witness :
    ("5,9" : String) ≠ ""
    ∧ iterPages fetch107 "2024-01-01" "5,9" 10 = iterPages fetch107 "" "5,9" 0 :=
  ⟨by decide,
    (c3_explicit_ids_single_fetch fetch107 "2024-01-01" "" "5,9" 10 0 (by decide)).2.1⟩

/-! ## C10: absent metadata / has_more / pages keys are harmless -/

/-- A server answering the empty JSON object (no pages, no metadata). -/
def bareServer : Request → Except String Response :=
  fun _ => Except.ok {}

/-- C10: a paginated response with no metadata object, or with a metadata
object lacking the has_more key, raises no error: the loop treats the
continuation flag as false and stops after yielding that response's pages;
and a response with no pages key contributes zero records. -/
theorem c10_missing_metadata_terminates :
    ∀ (fetch : Request → Except String Response) (m : String) (fuel pg : Nat)
      (d : Response),
      fetch (pageReq pg m) = Except.ok d →
      ((d.metadata = none ∨ d.metadata = some { hasMore := none }) →
        iterLoop fetch m (fuel + 1) pg = Except.ok (pagesOf d, [pageReq pg m]))
      ∧ (d.pages = none → pagesOf d = []) := by
  intro fetch m fuel pg d hf
  constructor
  · intro hm
    have hflag : hasMoreOf d = false := by
      rcases hm with h | h <;> simp [hasMoreOf, h]
    simp [iterLoop, hf, hflag]
  · intro hp
    simp [pagesOf, hp]

/-- C10 witness: the empty response terminates pagination after one fetch and
contributes zero records. -/
theorem c10_missing_metadata_terminates_witness :
    iterLoop bareServer "" (0 + 1) 1 = Except.ok (pagesOf {}, [pageReq 1 ""])
    ∧ pagesOf {} = [] :=
  ⟨(c10_missing_metadata_terminates bareServer "" 0 1 {} rfl).1 (Or.inl rfl),
    (c10_missing_metadata_terminates bareServer "" 0 1 {} rfl).2 rfl⟩

/-! ## C8: effective since value and full-resync behaviour -/

/-- The `modified_after` query parameter carried by a request. -/
def reqMod : Request → Option String
  | Request.byIds _ => none
  | Request.byPage _ _ m => m

/-- C8: the effective `since` is the explicit override when non-empty, else
the stored checkpoint when non-empty, else empty; and when it is empty every
request of the paginated sweep carries no `modified_after` filter (full
resync). -/
theorem c8_effective_since_resolution :
    (∀ a b : String,
      (a ≠ "" → effectiveSince a b = a)
      ∧ (a = "" → b ≠ "" → effectiveSince a b = b)
      ∧ (a = "" → b = "" → effectiveSince a b = ""))
    ∧ (∀ (fetch : Request → Except String Response) (fuel pg : Nat)
        (res : List Page × List Request),
        iterLoop fetch "" fuel pg = Except.ok res →
        ∀ r ∈ res.2, reqMod r = none) := by
  constructor
  · intro a b
    refine ⟨fun h => by simp [effectiveSince, pyOr, h],
      fun h1 h2 => by simp [effectiveSince, pyOr, h1, h2],
      fun h1 h2 => by simp [effectiveSince, pyOr, h1, h2]⟩
  · intro fetch fuel
    induction fuel with
    | zero =>
      intro pg res h r hr
      simp only [iterLoop, Except.ok.injEq] at h
      subst h
      simp at hr
    | succ n ih =>
      intro pg res h r hr
      simp only [iterLoop] at h
      cases hf : fetch (pageReq pg "") with
      | error e =>
        rw [hf] at h
        simp at h
      | ok d =>
        rw [hf] at h
        dsimp only at h
        by_cases hm : hasMoreOf d
        · rw [if_pos hm] at h
          cases hrec : iterLoop fetch "" n (pg + 1) with
          | error e =>
            rw [hrec] at h
            simp at h
          | ok r2 =>
            obtain ⟨pages2, reqs2⟩ := r2
            rw [hrec] at h
            simp only [Except.ok.injEq] at h
            subst h
            simp only [List.mem_cons] at hr
            rcases hr with hr | hr
            · subst hr
              rfl
            · exact ih (pg + 1) (pages2, reqs2) hrec r hr
        · rw [if_neg hm] at h
          simp only [Except.ok.injEq] at h
          subst h
          simp only [List.mem_singleton] at hr
          subst hr
          rfl

/-- C8 witness: the three resolution cases on concrete strings, and the
absence of the filter on the one request of a concrete empty-since sweep. -/
theorem c8_effective_since_resolution_witness :
    effectiveSince "2024-05-01" "ckpt" = "2024-05-01"
    ∧ effectiveSince "" "ckpt" = "ckpt"
    ∧ effectiveSince "" "" = ""
    ∧ reqMod (pageReq 1 "") = none := by
  refine ⟨(c8_effective_since_resolution.1 "2024-05-01" "ckpt").1 (by decide),
    (c8_effective_since_resolution.1 "" "ckpt").2.1 rfl (by decide),
    (c8_effective_since_resolution.1 "" "").2.2 rfl rfl,
    c8_effective_since_resolution.2 bareServer 1 1 ([], [pageReq 1 ""]) rfl
      (pageReq 1 "") (by simp)⟩

/-! ## C5: store resolution by exact name match -/

/-- C5: against one listing of existing stores, the first store whose name
equals the target exactly is returned and no create call is issued; when no
listed store matches, exactly one create call with that name is issued; a
store is matched iff its name equals the target case-sensitively (a listed
store differing only in case triggers a create). -/
theorem c5_store_resolution :
    ∀ (stores : List Store) (target freshId : String),
      (∀ s, stores.find? (fun s => s.name = some target) = some s →
        resolveStore stores target freshId = (s, 0))
      ∧ (stores.find? (fun s => s.name = some target) = none →
          resolveStore stores target freshId
            = ({ id := freshId, name := some target }, 1))
      ∧ ((∃ s ∈ stores, s.name = some target)
          ↔ (resolveStore stores target freshId).2 = 0)
      ∧ resolveStore [{ id := "sA", name := some "VBL-RAG-TEST" }]
            "vbl-rag-test" freshId
          = ({ id := freshId, name := some "vbl-rag-test" }, 1) := by
  intro stores target freshId
  refine ⟨?_, ?_, ?_, ?_⟩
  · intro s h
    simp [resolveStore, h]
  · intro h
    simp [resolveStore, h]
  · constructor
    · rintro ⟨s, hs, hname⟩
      cases hfind : stores.find? (fun s => s.name = some target) with
      | none =>
        rw [List.find?_eq_none] at hfind
        exact absurd (by simp [hname]) (hfind s hs)
      | some s' => simp [resolveStore, hfind]
    · intro h2
      cases hfind : stores.find? (fun s => s.name = some target) with
      | none => simp [resolveStore, hfind] at h2
      | some s' =>
        have hp := List.find?_some hfind
        simp only [decide_eq_true_eq] at hp
        exact ⟨s', List.mem_of_find?_eq_some hfind, hp⟩
  · rfl

/-- C5 witness: a listed store with the exact name is reused with no create
call; an empty listing leads to exactly one create call. -/
theorem c5_store_resolution_witness :
    resolveStore [{ id := "s1", name := some "vbl-rag-test" }] "vbl-rag-test" "new"
        = ({ id := "s1", name := some "vbl-rag-test" }, 0)
    ∧ resolveStore [] "vbl-rag-test" "new"
        = ({ id := "new", name := some "vbl-rag-test" }, 1) :=
  ⟨(c5_store_resolution [{ id := "s1", name := some "vbl-rag-test" }]
      "vbl-rag-test" "new").1 _ (by decide),
    (c5_store_resolution [] "vbl-rag-test" "new").2.1 rfl⟩

/-! ## C9: attachment attributes always carry all seven keys -/

/-- C9: the attribute mapping of every page has exactly the seven keys
source, page_id, modified, title, brand, pillar, section in this order;
absent taxonomy fields are passed through as null values, never omitted; and
every attach call of a successful run carries a mapping with these keys. -/
theorem c9_attribute_keys :
    (∀ p : Page,
      (mkAttrs p).map Prod.fst
          = ["source", "page_id", "modified", "title", "brand", "pillar", "section"]
      ∧ (p.brand = none → (mkAttrs p).lookup "brand" = some none)
      ∧ (p.pillar = none → (mkAttrs p).lookup "pillar" = some none)
      ∧ (p.sectionTax = none → (mkAttrs p).lookup "section" = some none))
    ∧ (∀ server fuel a b c name stores fid v st,
        runMain server fuel a b c name stores fid v = (st, none) →
        ∀ e ∈ st.attachLog,
          e.2.map Prod.fst
            = ["source", "page_id", "modified", "title", "brand", "pillar", "section"]) := by
  constructor
  · intro p
    refine ⟨rfl, fun h => ?_, fun h => ?_, fun h => ?_⟩ <;>
      simp [mkAttrs, List.lookup, h]
  · intro server fuel a b c name stores fid v st h
    unfold runMain at h
    dsimp only at h
    cases hres : iterPages (getJson server) (effectiveSince a b)
        (pyOr (pyStrip c) "") fuel with
    | error e =>
      rw [hres] at h
      simp only [Prod.mk.injEq] at h
      exact absurd h.2 (by simp)
    | ok pr =>
      obtain ⟨pages, reqs⟩ := pr
      rw [hres] at h
      by_cases hc : (processPages pages).length = 0
      · simp only [hc, eq_self_iff_true, if_true, Prod.mk.injEq, and_true] at h
        subst h
        intro e he
        simp at he
      · rcases hrs : resolveStore stores name fid with ⟨store, created⟩
        rw [hrs] at h
        simp only [if_neg hc, Prod.mk.injEq, and_true] at h
        subst h
        intro e he
        simp only [List.mem_map] at he
        obtain ⟨f, -, rfl⟩ := he
        rfl

/-- C9 witness: a concrete page without taxonomy fields still yields all
seven keys, with null values for the absent ones, and the attach call of a
concrete successful run carries those keys. -/
theorem c9_attribute_keys_witness :
    (mkAttrs { id := some "3" }).map Prod.fst
        = ["source", "page_id", "modified", "title", "brand", "pillar", "section"]
    ∧ (mkAttrs { id := some "3" }).lookup "brand" = some none
    ∧ ("5.txt", mkAttrs { id := some "5" }).2.map Prod.fst
        = ["source", "page_id", "modified", "title", "brand", "pillar", "section"] := by
  refine ⟨(c9_attribute_keys.1 { id := some "3" }).1,
    (c9_attribute_keys.1 { id := some "3" }).2.1 rfl,
    c9_attribute_keys.2 okServer 1 "" "" "" "vbl-rag-test" [] "vs_new" "1.0"
      (runMain okServer 1 "" "" "" "vbl-rag-test" [] "vs_new" "1.0").1 (by decide)
      ("5.txt", mkAttrs { id := some "5" }) (by decide)⟩

/-! ## C4: retry with a fixed attempt ceiling of 5 -/

/-- A server failing transiently on attempts 1 and 2, succeeding from the
3rd attempt on, with per-request payload `base`. -/
def flakyServer (base : Request → Response) (req : Request) (attempt : Nat) :
    Except String Response :=
  if attempt ≤ 2 then Except.error "transient" else Except.ok (base req)

/-- A server succeeding immediately with per-request payload `base`. -/
def steadyServer (base : Request → Response) (req : Request) (_attempt : Nat) :
    Except String Response :=
  Except.ok (base req)

/-- A server whose first 5 attempts always fail (attempt 6 would succeed,
but the retry ceiling never reaches it). -/
def failingServer (_req : Request) (attempt : Nat) : Except String Response :=
  if attempt ≤ 5 then Except.error "boom" else Except.ok {}

/-- The all-defaults payload for synthetic servers. -/
def emptyBase : Request → Response :=
  fun _ => {}

/-- C4: a fetch that fails twice and succeeds on the 3rd attempt produces a
run indistinguishable from immediate success; a fetch that fails 5
consecutive times exhausts the retry ceiling (the 6th attempt is never
made), and such a run aborts with exit status 1, zero upload and attach
calls, and the error printed last. -/
theorem c4_retry_with_attempt_ceiling :
    (∀ (base : Request → Response) (fuel : Nat) (a b c name : String)
        (stores : List Store) (fid v : String),
      runTop (flakyServer base) fuel a b c name stores fid v
        = runTop (steadyServer base) fuel a b c name stores fid v)
    ∧ (∀ req, getJson failingServer req = Except.error "boom")
    ∧ (∀ (fuel : Nat) (a b c name : String) (stores : List Store) (fid v : String),
        1 ≤ fuel →
        (runTop failingServer fuel a b c name stores fid v).2 = 1
        ∧ (runTop failingServer fuel a b c name stores fid v).1.uploadCalls = 0
        ∧ (runTop failingServer fuel a b c name stores fid v).1.attachCalls = 0
        ∧ (runTop failingServer fuel a b c name stores fid v).1.output.getLast?
            = some ("ERROR: " ++ "boom")) := by
  have hgb : ∀ req, getJson failingServer req = Except.error "boom" := fun _ => rfl
  refine ⟨?_, hgb, ?_⟩
  · intro base fuel a b c name stores fid v
    have hg : getJson (flakyServer base) = getJson (steadyServer base) :=
      funext fun req => rfl
    unfold runTop runMain
    rw [hg]
  · intro fuel a b c name stores fid v hf
    obtain ⟨k, rfl⟩ : ∃ k, fuel = k + 1 := ⟨fuel - 1, by omega⟩
    have hiter : iterPages (getJson failingServer) (effectiveSince a b)
        (pyOr (pyStrip c) "") (k + 1) = Except.error "boom" := by
      by_cases hids : pyOr (pyStrip c) "" = ""
      · simp [iterPages, hids, iterLoop, hgb]
      · simp [iterPages, hids, hgb, Except.map]
    refine ⟨?_, ?_, ?_, ?_⟩ <;>
      (unfold runTop runMain; dsimp only; rw [hiter]; try rfl)

/-- C4 witness: the flaky-equals-steady run equality, the exhausted retry
result, and the abort facts on concrete inputs. -/
theorem c4_retry_with_attempt_ceiling_witness :
    runTop (flakyServer emptyBase) 1 "" "" "" "vbl-rag-test" [] "f" "1.0"
        = runTop (steadyServer emptyBase) 1 "" "" "" "vbl-rag-test" [] "f" "1.0"
    ∧ getJson failingServer (pageReq 1 "") = Except.error "boom"
    ∧ (1 : Nat) ≤ 1
    ∧ (runTop failingServer 1 "" "" "" "vbl-rag-test" [] "f" "1.0").2 = 1
    ∧ (runTop failingServer 1 "" "" "" "vbl-rag-test" [] "f" "1.0").1.uploadCalls = 0 :=
  ⟨c4_retry_with_attempt_ceiling.1 emptyBase 1 "" "" "" "vbl-rag-test" [] "f" "1.0",
    c4_retry_with_attempt_ceiling.2.1 (pageReq 1 ""),
    by decide,
    (c4_retry_with_attempt_ceiling.2.2 1 "" "" "" "vbl-rag-test" [] "f" "1.0"
      (by decide)).1,
    (c4_retry_with_attempt_ceiling.2.2 1 "" "" "" "vbl-rag-test" [] "f" "1.0"
      (by decide)).2.1⟩

/-! ## C7: empty fetch result and error exit -/

/-- A server answering the empty JSON object on every attempt. -/
def emptyOkServer : Request → Nat → Except String Response :=
  fun _ _ => Except.ok {}

/-- C7: when the fetch phase yields zero pages the run performs no store
listing, no create, no upload and no attach call, prints the zero-prepared
summary and exits with status 0; when `main` raises an unrecoverable error
the process appends the `ERROR:` line (the error message is printed before
exiting) and exits with status 1. -/
theorem c7_empty_result_and_error_exit :
    (∀ server fuel a b c name stores fid v reqs,
      iterPages (getJson server) (effectiveSince a b) (pyOr (pyStrip c) "") fuel
          = Except.ok ([], reqs) →
      runTop server fuel a b c name stores fid v
          = ({ output := ["OpenAI SDK version: " ++ v,
              "Prepared 0 page files in /tmp/rag_pages"] }, 0))
    ∧ (∀ server fuel a b c name stores fid v st e,
        runMain server fuel a b c name stores fid v = (st, some e) →
        runTop server fuel a b c name stores fid v
            = ({ st with output := st.output ++ ["ERROR: " ++ e] }, 1)) := by
  constructor
  · intro server fuel a b c name stores fid v reqs hres
    unfold runTop runMain
    dsimp only
    rw [hres]
    rfl
  · intro server fuel a b c name stores fid v st e h
    unfold runTop
    rw [h]

/-- C7 witness: a run fetching zero pages on a concrete server exits 0 with
no store/upload/attach activity, and a concrete failing run exits 1 with the
error printed. -/
theorem c7_empty_result_and_error_exit_witness :
    runTop emptyOkServer 1 "" "" "" "vbl-rag-test" [] "f" "1.0"
        = ({ output := ["OpenAI SDK version: " ++ "1.0",
            "Prepared 0 page files in /tmp/rag_pages"] }, 0)
    ∧ runTop failingServer 1 "" "" "" "vbl-rag-test" [] "f" "1.0"
        = ({ output := ["OpenAI SDK version: " ++ "1.0"] ++ ["ERROR: " ++ "boom"] }, 1) :=
  ⟨c7_empty_result_and_error_exit.1 emptyOkServer 1 "" "" "" "vbl-rag-test" [] "f"
      "1.0" [pageReq 1 ""] rfl,
    c7_empty_result_and_error_exit.2 failingServer 1 "" "" "" "vbl-rag-test" [] "f"
      "1.0" { output := ["OpenAI SDK version: " ++ "1.0"] } "boom" rfl⟩
